import Mathlib

/-!
Formal model of the panda-monitor agent/collector pair.

The definitions below are a shallow embedding of the Rust sources:
  * `Backend` models `src/backend/src/rpc_service.rs` (the collector's shared
    aggregation window, its background state-check/flush task, and the
    `report_server_state` RPC handler) and `src/backend/src/ws_handler.rs`
    (the WebSocket command gateway).
  * `Agent` models `src/agent/src/monitor.rs` (the retry loops of
    `ServerMonitorAgent::new`, `send_command` and `report_server_state`, the
    command dispatch of `parse_command`, and the tick logic of
    `start_reporting_state`) and `src/agent/src/fetch_ip.rs` (`fetch_geo_ip`).

The collector never inspects the contents of a `State` protobuf message (it
only pushes it onto a `Vec<State>` and serializes the vector), so the model is
parametric in the snapshot type `St`; JSON serialization is likewise passed in
as an abstract function `List St → Option String` (`none` models a
`serde_json` error, which the source maps to the empty string).
-/

/-- gRPC-style status errors produced by the collector handlers
(`tonic::Status`). Only the two constructors the modelled code uses. -/
inductive Status where
  | internal (msg : String)
  | invalid_argument (msg : String)
deriving DecidableEq, Repr

/-- Proto message `AgentInfo { agent_version, server_id }`. -/
structure AgentInfo where
  agent_version : String
  server_id : Nat
deriving DecidableEq, Repr

/-- Proto message `ServerResponse { success }`. -/
structure ServerResponse where
  success : Bool
deriving DecidableEq, Repr

/-- Proto message `Command { command, data, server_ids }`: numeric
discriminator (0 = directive/ack, 1 = aggregated-state delivery), string
payload, and the recipient id list (`Vec<u64>`). -/
structure Command where
  command : Nat
  data : String
  server_ids : List Nat
deriving DecidableEq, Repr

/-- Proto message `StateRequest { state, agent_info, upload_time }`; the two
sub-messages are `Option`s exactly as `prost` generates them. -/
structure StateRequest (St : Type) where
  state : Option St
  agent_info : Option AgentInfo
  upload_time : Nat
deriving DecidableEq

namespace Backend

/-- `SharedState` from `rpc_service.rs`: the aggregation window. `states` is a
`Vec<State>` (a list: push appends at the end), `server_ids` a `HashSet<u64>`
(a `Finset`). -/
structure SharedState (St : Type) where
  states : List St
  server_ids : Finset Nat
deriving DecidableEq

/-- `SharedState::new()`: empty vector, empty set. -/
def SharedState.new {St : Type} : SharedState St := ⟨[], ∅⟩

/-- `MAX_SERVER_COUNT` from `rpc_service.rs` (hard-coded fleet-size
placeholder). -/
def MAX_SERVER_COUNT : Nat := 50

/-- The locked section of `report_server_state` that ingests one report:
`states_lock.states.push(state); states_lock.server_ids.insert(agent_info.server_id)`. -/
def SharedState.ingest {St : Type} (s : SharedState St) (server_id : Nat)
    (state : St) : SharedState St :=
  ⟨s.states ++ [state], insert server_id s.server_ids⟩

/-- One wake-up of the background task spawned by `start_state_check_task`,
from `notify.notified()` returning to the end of the loop body.  Returns the
window afterwards and the command published on the broadcast channel (`none`
when the iteration is skipped).  Mirrors the source: if
`server_ids.len() == MAX_SERVER_COUNT` the iteration `continue`s without
touching the window; otherwise the states are serialized (a serde error is
replaced by the empty string), a `Command { command: 1 }` addressed to the
collected `server_ids` is sent, and both the vector and the set are cleared.
The source collects the recipient `Vec` by iterating the `HashSet` in its
unspecified order; the model uses ascending order as one concrete such
order (the claims only inspect the recipient list as a set). -/
def stateCheckStep {St : Type} (serialize : List St → Option String)
    (s : SharedState St) : SharedState St × Option Command :=
  if s.server_ids.card = MAX_SERVER_COUNT then
    (s, none)
  else
    let serialized_data := (serialize s.states).getD ""
    (⟨[], ∅⟩, some ⟨1, serialized_data, s.server_ids.sort (· ≤ ·)⟩)

/-- The `ReportState` RPC handler `report_server_state` from
`rpc_service.rs`.  Its argument is the inbound stream, a list of
`Result<StateRequest, Status>` items.  The source reads at most the first item
(`if let Some(request) = stream.next().await`), validates its sub-messages,
ingests it under the lock and fires the notify; it returns
`ServerResponse { success: true }` otherwise.  The result carries the new
window, the response, and whether `notify_one` was called. -/
def report_server_state {St : Type} (s : SharedState St)
    (stream : List (Except Status (StateRequest St))) :
    Except Status (SharedState St × ServerResponse × Bool) :=
  match stream with
  | [] => .ok (s, ⟨true⟩, false)
  | item :: _ =>
    match item with
    | .error _ => .error (.internal "接收请求失败")
    | .ok req =>
      match req.state, req.agent_info with
      | none, _ => .error (.invalid_argument "缺少状态信息")
      | some _, none => .error (.invalid_argument "缺少探针信息")
      | some state, some agent_info =>
        .ok (s.ingest agent_info.server_id state, ⟨true⟩, true)

/-- Folding `ingest` over a list of `(server_id, state)` reports models any
serialized order of concurrent `report_server_state` ingests (each ingest
holds the mutex, so every interleaving is some such order). -/
def ingestAll (St : Type) (reports : List (Nat × St)) : SharedState St :=
  reports.foldl (fun s r => s.ingest r.1 r.2) SharedState.new

end Backend

namespace Backend

theorem ingestAll_go {St : Type} (reports : List (Nat × St)) (s : SharedState St) :
    reports.foldl (fun s r => s.ingest r.1 r.2) s =
      ⟨s.states ++ reports.map Prod.snd,
        s.server_ids ∪ (reports.map Prod.fst).toFinset⟩ := by
  induction reports generalizing s with
  | nil => simp [SharedState.ingest]
  | cons r rest ih =>
    rw [List.foldl_cons, ih]
    simp [SharedState.ingest, Finset.insert_union, Finset.union_insert]

end Backend

/-- C1 (amended): for every serialized order of `ingest` calls (hence every
interleaving of concurrent `report_server_state` ingests, which are serialized
by the mutex), the window's identity set afterwards is exactly the set of
ingesting identities — for M distinct identities it has size M and contains
each exactly once — but the snapshot buffer is the full list of reported
snapshots in ingest order: a re-ingest from the same identity appends a
further snapshot instead of overwriting the stored one. -/
theorem C1_window_after_ingests (St : Type) (reports : List (Nat × St)) :
    (Backend.ingestAll St reports).server_ids = (reports.map Prod.fst).toFinset
    ∧ (Backend.ingestAll St reports).states = reports.map Prod.snd
    ∧ ((reports.map Prod.fst).Nodup →
        (Backend.ingestAll St reports).server_ids.card = reports.length) := by
  have h := Backend.ingestAll_go reports Backend.SharedState.new
  unfold Backend.ingestAll
  rw [h]
  refine ⟨by simp [Backend.SharedState.new], by simp [Backend.SharedState.new],
    fun hnd => by simp [Backend.SharedState.new, List.toFinset_card_of_nodup hnd]⟩

/-- Witness for C1: two ingests from the distinct identities 1 and 2. -/
theorem C1_window_after_ingests_witness :
    ([(1, 10), (2, 20)].map (Prod.fst : Nat × Nat → Nat)).Nodup
    ∧ (Backend.ingestAll Nat [(1, 10), (2, 20)]).server_ids.card
        = [(1, 10), (2, 20)].length :=
  ⟨by decide, (C1_window_after_ingests Nat [(1, 10), (2, 20)]).2.2 (by decide)⟩

/-- Counterexample for C1 as stated: re-ingesting from an identity already in
the window does NOT overwrite its snapshot.  After ingesting snapshot 10 and
then snapshot 20 from the same identity 1, the identity set is `{1}` but the
window holds BOTH snapshots — its snapshot count is 2, not the 1 that the
claimed identity-to-most-recent-snapshot mapping semantics would give. -/
theorem C1_counterexample :
    ((((Backend.SharedState.new : Backend.SharedState Nat)).ingest 1 10).ingest 1 20).states
        = [10, 20]
    ∧ ((((Backend.SharedState.new : Backend.SharedState Nat)).ingest 1 10).ingest 1 20).server_ids
        = {1}
    ∧ ((((Backend.SharedState.new : Backend.SharedState Nat)).ingest 1 10).ingest 1 20).states.length
        ≠ ({1} : Finset Nat).card := by
  refine ⟨rfl, by decide, by decide⟩

/-- C2: whenever the background state-check task takes the flushing branch
(the identity count is not at `MAX_SERVER_COUNT`), the published command's
recipient set is exactly the set of identities in the window immediately
before the flush, and immediately afterwards the window's snapshot count is 0
and its identity set is empty. -/
theorem C2_flush_clears_window (St : Type) (serialize : List St → Option String)
    (s : Backend.SharedState St)
    (h : s.server_ids.card ≠ Backend.MAX_SERVER_COUNT) :
    ∃ cmd : Command,
      Backend.stateCheckStep serialize s = (⟨[], ∅⟩, some cmd)
      ∧ cmd.server_ids.toFinset = s.server_ids
      ∧ (Backend.stateCheckStep serialize s).1.states.length = 0
      ∧ (Backend.stateCheckStep serialize s).1.server_ids = ∅ := by
  unfold Backend.stateCheckStep
  rw [if_neg h]
  exact ⟨_, rfl, Finset.sort_toFinset _ _, rfl, rfl⟩

/-- Witness for C2: a window holding one snapshot from identity 42. -/
theorem C2_flush_clears_window_witness :
    ∃ cmd : Command,
      Backend.stateCheckStep (fun _ => some "[]") (⟨[7], {42}⟩ : Backend.SharedState Nat)
          = (⟨[], ∅⟩, some cmd)
      ∧ cmd.server_ids.toFinset = ({42} : Finset Nat)
      ∧ (Backend.stateCheckStep (fun _ => some "[]")
          (⟨[7], {42}⟩ : Backend.SharedState Nat)).1.states.length = 0
      ∧ (Backend.stateCheckStep (fun _ => some "[]")
          (⟨[7], {42}⟩ : Backend.SharedState Nat)).1.server_ids = ∅ :=
  C2_flush_clears_window Nat (fun _ => some "[]") ⟨[7], {42}⟩ (by decide)

/-- C3 (amended): the background task skips a wake-up exactly when the number
of contributing identities EQUALS the ceiling `MAX_SERVER_COUNT = 50` (the
source compares with `==`): at 50 it publishes nothing and leaves the window
unchanged, while at any other count — including counts above 50 such as 51 —
it flushes and publishes a command. -/
theorem C3_skip_only_at_exact_ceiling (St : Type)
    (serialize : List St → Option String) (s : Backend.SharedState St) :
    (s.server_ids.card = Backend.MAX_SERVER_COUNT →
      Backend.stateCheckStep serialize s = (s, none))
    ∧ (s.server_ids.card ≠ Backend.MAX_SERVER_COUNT →
      ∃ cmd, Backend.stateCheckStep serialize s = (⟨[], ∅⟩, some cmd)) := by
  constructor
  · intro h
    unfold Backend.stateCheckStep
    rw [if_pos h]
  · intro h
    unfold Backend.stateCheckStep
    rw [if_neg h]
    exact ⟨_, rfl⟩

/-- Witness for C3: a window with exactly 50 identities is skipped and left
unchanged; one with a single identity is flushed. -/
theorem C3_skip_only_at_exact_ceiling_witness :
    Backend.stateCheckStep (fun _ => some "[]")
        (⟨[], Finset.range 50⟩ : Backend.SharedState Nat)
      = (⟨[], Finset.range 50⟩, none)
    ∧ ∃ cmd, Backend.stateCheckStep (fun _ => some "[]")
        (⟨[7], {42}⟩ : Backend.SharedState Nat) = (⟨[], ∅⟩, some cmd) :=
  ⟨(C3_skip_only_at_exact_ceiling Nat (fun _ => some "[]")
      ⟨[], Finset.range 50⟩).1 (by simp [Backend.MAX_SERVER_COUNT]),
   (C3_skip_only_at_exact_ceiling Nat (fun _ => some "[]")
      ⟨[7], {42}⟩).2 (by decide)⟩

/-- Counterexample for C3 as stated: the claim requires the task to skip for
EVERY identity count at or above 50, e.g. also 51, but with 51 identities in
the window the source's `==` comparison fails and the wake-up flushes: a
command IS published (and the window is cleared rather than left unchanged).
-/
theorem C3_counterexample :
    50 ≤ ((⟨[], Finset.range 51⟩ : Backend.SharedState Nat)).server_ids.card
    ∧ ((Backend.stateCheckStep (fun _ => some "[]")
        (⟨[], Finset.range 51⟩ : Backend.SharedState Nat)).2).isSome = true := by
  constructor
  · simp [Finset.card_range]
  · simp [Backend.stateCheckStep, Finset.card_range, Backend.MAX_SERVER_COUNT]

/-- C10: the collector's `report_server_state` handler reads at most the
first item of its inbound stream — the result is the same no matter what
follows the first item — and on an empty stream it still answers
`success = true`, leaving the window unchanged and not firing the notify. -/
theorem C10_first_stream_item_only (St : Type) (s : Backend.SharedState St)
    (first : Except Status (StateRequest St))
    (rest₁ rest₂ : List (Except Status (StateRequest St))) :
    Backend.report_server_state s [] = .ok (s, ⟨true⟩, false)
    ∧ Backend.report_server_state s (first :: rest₁)
        = Backend.report_server_state s (first :: rest₂) := by
  refine ⟨rfl, ?_⟩
  cases first with
  | error e => rfl
  | ok req =>
    cases hst : req.state <;> cases hai : req.agent_info <;>
      simp [Backend.report_server_state, hst, hai]

namespace Backend

/-- One inbound event on the WebSocket in `handle_socket` (`ws_handler.rs`).
`recvErr` covers both an `Err` from `socket.recv()` and a non-text frame
(`msg.to_str()` failing); either makes the handler `break` with no
broadcast. -/
inductive WsEvent where
  | closeFrame
  | textMsg (s : String)
  | recvErr
deriving DecidableEq, Repr

/-- The command broadcast for the external literal `"start"`. -/
def report_state_command : Command := ⟨0, "report_state", [1, 2, 3]⟩

/-- The command broadcast for the external literal `"stop"` and for an
observed close frame. -/
def stop_report_state_command : Command := ⟨0, "stop_report_state", [1, 2, 3]⟩

/-- `handle_socket` from `ws_handler.rs`, as the sequence of commands it
publishes on the broadcast channel while consuming its inbound frames.  A
close frame publishes one `stop_report_state` and breaks; `"stop"` publishes
one `stop_report_state` and keeps receiving; `"start"` publishes one
`report_state` and then enters the inner relay loop
(`while let Ok(res) = rx.recv().await`), which sends broadcast payloads back
out and returns to the outer receive loop ONLY if the broadcast subscription
yields an error (`relayReturns`); since `main.rs` keeps the broadcast sender
alive for the whole process, in the ordinary execution the relay never
returns and no further inbound frame is processed.  Any other text is
ignored. -/
def handle_socket (relayReturns : Bool) : List WsEvent → List Command
  | [] => []
  | .recvErr :: _ => []
  | .closeFrame :: _ => [stop_report_state_command]
  | .textMsg t :: rest =>
    if t = "start" then
      report_state_command ::
        (if relayReturns then handle_socket relayReturns rest else [])
    else if t = "stop" then
      stop_report_state_command :: handle_socket relayReturns rest
    else
      handle_socket relayReturns rest

end Backend

/-- C9 (amended): the gateway translates the external literal `"start"` into
exactly one broadcast command with payload `report_state` and `"stop"` into
exactly one with payload `stop_report_state`; a close frame observed in the
outer receive loop (i.e. before any `"start"` armed the relay) emits exactly
one trailing `stop_report_state`; but once `"start"` has been received the
handler sits in the broadcast relay loop, and unless that subscription
errors it processes no further inbound frame, so channel closure while
reporting is armed produces no trailing broadcast. -/
theorem C9_command_translation (b : Bool) (rest : List Backend.WsEvent) :
    Backend.handle_socket b [.textMsg "start"] = [Backend.report_state_command]
    ∧ Backend.handle_socket b [.textMsg "stop"]
        = [Backend.stop_report_state_command]
    ∧ Backend.handle_socket b (.closeFrame :: rest)
        = [Backend.stop_report_state_command]
    ∧ Backend.handle_socket false (.textMsg "start" :: rest)
        = [Backend.report_state_command] := by
  cases b <;> exact ⟨rfl, rfl, rfl, rfl⟩

/-- Counterexample for C9 as stated: in the ordinary execution (the broadcast
sender lives for the whole process, so the relay loop never returns) a close
frame arriving after `"start"` — i.e. channel closure while reporting is
armed — is never processed: the handler's published commands are exactly the
single `report_state`, and no `stop_report_state` is ever broadcast, so an
agent IS left armed. -/
theorem C9_counterexample :
    Backend.handle_socket false [.textMsg "start", .closeFrame]
      = [Backend.report_state_command]
    ∧ (Backend.handle_socket false [.textMsg "start", .closeFrame]).countP
        (fun c => c.data = "stop_report_state") = 0 :=
  ⟨rfl, rfl⟩

namespace Agent

/-- `RETRY_ATTEMPTS` from `monitor.rs`. -/
def RETRY_ATTEMPTS : Nat := 3

/-- `RETRY_DELAY_SECS` from `monitor.rs`: the fixed delay, in seconds, of each
sleep between consecutive attempts. -/
def RETRY_DELAY_SECS : Nat := 2

/-- Observable outcome of one of the agent's retry loops: the returned value
(an error carries the attempt count baked into the `已重试 {} 次` message,
always `RETRY_ATTEMPTS`, plus the last underlying error), the number of times
the wrapped operation was invoked, and the number of `RETRY_DELAY_SECS`-second
sleeps performed. -/
structure RetryTrace (ε α : Type) where
  result : Except (Nat × ε) α
  invocations : Nat
  sleeps : Nat
deriving Repr

/-- The connect retry loop inside `ServerMonitorAgent::new`.  `op i` is the
outcome of the `i`-th `Channel::connect()` call (0-based; `i` equals the
`attempts` counter at the time of the call, since every failure increments
it).  `fuel` is `RETRY_ATTEMPTS - attempts`, which bounds the recursion; the
`fuel = 0` branch is unreachable from `new_connect` because the
`attempts + 1 >= RETRY_ATTEMPTS` check fires first (the loop has no
fall-through: it either breaks with the channel or returns the error). -/
def connect_loop {ε α : Type} [Inhabited ε] (op : Nat → Except ε α) :
    Nat → Nat → RetryTrace ε α
  | _, 0 => ⟨.error (RETRY_ATTEMPTS, default), 0, 0⟩
  | attempts, fuel + 1 =>
    match op attempts with
    | .ok v => ⟨.ok v, 1, 0⟩
    | .error e =>
      if RETRY_ATTEMPTS ≤ attempts + 1 then ⟨.error (RETRY_ATTEMPTS, e), 1, 0⟩
      else
        let t := connect_loop op (attempts + 1) fuel
        ⟨t.result, t.invocations + 1, t.sleeps + 1⟩

/-- `ServerMonitorAgent::new`'s connect step: the loop entered with
`attempts = 0`. -/
def new_connect {ε α : Type} [Inhabited ε] (op : Nat → Except ε α) :
    RetryTrace ε α :=
  connect_loop op 0 RETRY_ATTEMPTS

/-- The `while attempts < RETRY_ATTEMPTS` retry loop shared verbatim by
`send_command` and `report_server_state` in `monitor.rs`.  `fuel` is
`RETRY_ATTEMPTS - attempts`; the `fuel = 0` branch is the loop's fall-through
`Ok(())` (reached only when the while condition is false). -/
def retry_loop {ε : Type} (op : Nat → Except ε Unit) :
    Nat → Nat → RetryTrace ε Unit
  | _, 0 => ⟨.ok (), 0, 0⟩
  | attempts, fuel + 1 =>
    match op attempts with
    | .ok _ => ⟨.ok (), 1, 0⟩
    | .error e =>
      if attempts + 1 = RETRY_ATTEMPTS then ⟨.error (RETRY_ATTEMPTS, e), 1, 0⟩
      else
        let t := retry_loop op (attempts + 1) fuel
        ⟨t.result, t.invocations + 1, t.sleeps + 1⟩

/-- `ServerMonitorAgent::send_command`: the retry loop around
`try_send_command`, entered with `attempts = 0`. -/
def send_command {ε : Type} (try_send : Nat → Except ε Unit) :
    RetryTrace ε Unit :=
  retry_loop try_send 0 RETRY_ATTEMPTS

/-- `ServerMonitorAgent::report_server_state`: the retry loop around
`try_report_state`, entered with `attempts = 0`. -/
def report_server_state {ε : Type} (try_report : Nat → Except ε Unit) :
    RetryTrace ε Unit :=
  retry_loop try_report 0 RETRY_ATTEMPTS

/-- `ServerMonitorAgent::try_report_state`.  Its two fallible steps are the
`tx.send(request)` into the local channel (whose receiver is alive in scope,
so it cannot in fact fail) and the `report_server_state` RPC call; the source
DISCARDS the RPC call's result (`let _ = self.client.report_server_state(...)`,
with the former timeout and success checks commented out), so only the
channel-send error is propagated and an RPC failure still yields `Ok(())`. -/
def try_report_state {ε : Type} (send_result : Except ε Unit)
    (_rpc_result : Except ε ServerResponse) : Except ε Unit :=
  match send_result with
  | .error e => .error e
  | .ok _ => .ok ()

/-- The agent's mutable state relevant to command handling
(`ServerMonitorAgent`'s `server_id` and `report_state` fields). -/
structure ServerMonitorAgent where
  server_id : Nat
  report_state : Bool
deriving DecidableEq, Repr

/-- The side effects `parse_command` can trigger, in order. -/
inductive AgentAction where
  | finalStateReport
  | startReportingState
  | reportHost
  | reportIp
  | logUnknown (data : String)
deriving DecidableEq, Repr

/-- `ServerMonitorAgent::shutdown`: if reporting is armed, clear the flag and
issue one final state report; otherwise do nothing. -/
def shutdown (agent : ServerMonitorAgent) :
    ServerMonitorAgent × List AgentAction :=
  if agent.report_state then
    ({ agent with report_state := false }, [.finalStateReport])
  else
    (agent, [])

/-- `ServerMonitorAgent::parse_command`: propagate a stream error; otherwise,
if the command's recipient list does not contain this agent's id, return
`Ok` with no state change and no action; otherwise dispatch on the payload
string (`stop_report_state` runs `shutdown`, `report_state` sets the flag and
enters the reporting loop, `report_host` and `report_ip` fire one immediate
report, anything else is logged and ignored). -/
def parse_command (agent : ServerMonitorAgent)
    (command : Except Status Command) :
    Except Status (ServerMonitorAgent × List AgentAction) :=
  match command with
  | .error e => .error e
  | .ok command =>
    if !(command.server_ids.contains agent.server_id) then
      .ok (agent, [])
    else if command.data = "stop_report_state" then
      .ok (shutdown agent)
    else if command.data = "report_state" then
      .ok ({ agent with report_state := true }, [.startReportingState])
    else if command.data = "report_host" then
      .ok (agent, [.reportHost])
    else if command.data = "report_ip" then
      .ok (agent, [.reportIp])
    else
      .ok (agent, [.logUnknown command.data])

/-- Which way one iteration of `start_reporting_state` ends: await the rest of
the 1-second tick, or reset the tick and start the next report at once. -/
inductive TickAction where
  | awaitTick
  | resetImmediate
deriving DecidableEq, Repr

/-- The drift-correction decision at the bottom of each
`start_reporting_state` iteration, in milliseconds: the source compares the
report's elapsed wall-clock time against the HARD-CODED
`Duration::from_secs(1)` — the configured `state_report_interval` is not a
parameter of the loop at all (it is never read anywhere in `monitor.rs`). -/
def start_reporting_state_tick (elapsed_millis : Nat) : TickAction :=
  if elapsed_millis < 1000 then .awaitTick else .resetImmediate

/-- Formalisation of the CLAIM's words (not of the source), for comparison:
the elapsed report duration is compared against the CONFIGURED state-report
interval `D`. -/
def claimed_tick (state_report_interval_millis elapsed_millis : Nat) :
    TickAction :=
  if elapsed_millis < state_report_interval_millis then .awaitTick
  else .resetImmediate

/-- `GeoIp` from `fetch_ip.rs`; `#[derive(Default)]` gives empty strings. -/
structure GeoIp where
  ipv4 : String
  ipv6 : String
deriving DecidableEq, Repr

/-- `GeoIp::default()`. -/
def GeoIp.empty : GeoIp := ⟨"", ""⟩

/-- `fetch_geo_ip` from `fetch_ip.rs`.  The source runs all configured
provider lookups with `futures::future::join_all` — which awaits EVERY
future — and then iterates the results in `IP_SERVICES` configuration order,
returning the first `Ok`; if none is `Ok` it returns `GeoIp::default()`.
`results` is the `join_all` output, indexed in configuration order. -/
def fetch_geo_ip {ε : Type} : List (Except ε GeoIp) → GeoIp
  | [] => GeoIp.empty
  | .ok g :: _ => g
  | .error _ :: rest => fetch_geo_ip rest

/-- Formalisation of the CLAIM's words (not of the source), for comparison:
each provider outcome is paired with its completion time, and the winner is
the success with the least completion time (ties broken towards the earlier
list entry). -/
def min_time_success : List (GeoIp × Nat) → Option (GeoIp × Nat)
  | [] => none
  | p :: rest =>
    match min_time_success rest with
    | none => some p
    | some q => if p.2 ≤ q.2 then some p else some q

/-- The claim's winner among timed provider outcomes: the first provider to
COMPLETE successfully, regardless of configuration order. -/
def first_success_by_completion {ε : Type}
    (results : List (Except ε GeoIp × Nat)) : GeoIp :=
  let oks := results.filterMap
    (fun p => match p.1 with | .ok g => some (g, p.2) | .error _ => none)
  match min_time_success oks with
  | some p => p.1
  | none => GeoIp.empty

end Agent

namespace Agent

theorem retry_loop_inv_le_three {ε : Type} (op : Nat → Except ε Unit) :
    (retry_loop op 0 3).invocations ≤ 3 := by
  cases h0 : op 0 with
  | ok _ => simp [retry_loop, RETRY_ATTEMPTS, h0]
  | error e0 =>
    cases h1 : op 1 with
    | ok _ => simp [retry_loop, RETRY_ATTEMPTS, h0, h1]
    | error e1 =>
      cases h2 : op 2 with
      | ok _ => simp [retry_loop, RETRY_ATTEMPTS, h0, h1, h2]
      | error e2 => simp [retry_loop, RETRY_ATTEMPTS, h0, h1, h2]

theorem connect_loop_inv_le_three {ε α : Type} [Inhabited ε]
    (op : Nat → Except ε α) : (connect_loop op 0 3).invocations ≤ 3 := by
  cases h0 : op 0 with
  | ok _ => simp [connect_loop, RETRY_ATTEMPTS, h0]
  | error e0 =>
    cases h1 : op 1 with
    | ok _ => simp [connect_loop, RETRY_ATTEMPTS, h0, h1]
    | error e1 =>
      cases h2 : op 2 with
      | ok _ => simp [connect_loop, RETRY_ATTEMPTS, h0, h1, h2]
      | error e2 => simp [connect_loop, RETRY_ATTEMPTS, h0, h1, h2]

theorem retry_loop_all_fail {ε : Type} (op : Nat → Except ε Unit)
    (h : ∀ i, i < 3 → ∃ e, op i = .error e) :
    ∃ e, retry_loop op 0 3 = ⟨.error (3, e), 3, 2⟩ := by
  obtain ⟨e0, h0⟩ := h 0 (by omega)
  obtain ⟨e1, h1⟩ := h 1 (by omega)
  obtain ⟨e2, h2⟩ := h 2 (by omega)
  exact ⟨e2, by simp [retry_loop, RETRY_ATTEMPTS, h0, h1, h2]⟩

theorem connect_loop_all_fail {ε α : Type} [Inhabited ε]
    (op : Nat → Except ε α) (h : ∀ i, i < 3 → ∃ e, op i = .error e) :
    ∃ e, connect_loop op 0 3 = ⟨.error (3, e), 3, 2⟩ := by
  obtain ⟨e0, h0⟩ := h 0 (by omega)
  obtain ⟨e1, h1⟩ := h 1 (by omega)
  obtain ⟨e2, h2⟩ := h 2 (by omega)
  exact ⟨e2, by simp [connect_loop, RETRY_ATTEMPTS, h0, h1, h2]⟩

theorem retry_loop_succeeds {ε : Type} (op : Nat → Except ε Unit) (K : Nat)
    (hK : K < 3) (hf : ∀ i, i < K → ∃ e, op i = .error e)
    (hs : op K = .ok ()) : retry_loop op 0 3 = ⟨.ok (), K + 1, K⟩ := by
  interval_cases K
  · simp [retry_loop, RETRY_ATTEMPTS, hs]
  · obtain ⟨e0, h0⟩ := hf 0 (by omega)
    simp [retry_loop, RETRY_ATTEMPTS, h0, hs]
  · obtain ⟨e0, h0⟩ := hf 0 (by omega)
    obtain ⟨e1, h1⟩ := hf 1 (by omega)
    simp [retry_loop, RETRY_ATTEMPTS, h0, h1, hs]

theorem connect_loop_succeeds {ε α : Type} [Inhabited ε]
    (op : Nat → Except ε α) (K : Nat) (hK : K < 3)
    (hf : ∀ i, i < K → ∃ e, op i = .error e) (v : α) (hs : op K = .ok v) :
    connect_loop op 0 3 = ⟨.ok v, K + 1, K⟩ := by
  interval_cases K
  · simp [connect_loop, RETRY_ATTEMPTS, hs]
  · obtain ⟨e0, h0⟩ := hf 0 (by omega)
    simp [connect_loop, RETRY_ATTEMPTS, h0, hs]
  · obtain ⟨e0, h0⟩ := hf 0 (by omega)
    obtain ⟨e1, h1⟩ := hf 1 (by omega)
    simp [connect_loop, RETRY_ATTEMPTS, h0, h1, hs]

end Agent

/-- C5: each retry-wrapped operation — the connect loop of
`ServerMonitorAgent::new`, `send_command`, and the agent's
`report_server_state` — is invoked at most `RETRY_ATTEMPTS = 3` times with a
fixed `RETRY_DELAY_SECS = 2`-second sleep between consecutive attempts; an
operation failing on every attempt yields an error carrying the attempt
count 3 after exactly 3 invocations and exactly 2 sleeps, and an operation
failing `K < 3` times and then succeeding returns the success value after
exactly `K` retries (`K + 1` invocations, `K` sleeps). -/
theorem C5_retry_policy (ε α : Type) [Inhabited ε] (opC : Nat → Except ε α)
    (opS opR : Nat → Except ε Unit) :
    Agent.RETRY_ATTEMPTS = 3 ∧ Agent.RETRY_DELAY_SECS = 2
    ∧ (Agent.new_connect opC).invocations ≤ 3
    ∧ (Agent.send_command opS).invocations ≤ 3
    ∧ (Agent.report_server_state opR).invocations ≤ 3
    ∧ ((∀ i, i < 3 → ∃ e, opC i = .error e) →
        ∃ e, Agent.new_connect opC = ⟨.error (3, e), 3, 2⟩)
    ∧ ((∀ i, i < 3 → ∃ e, opS i = .error e) →
        ∃ e, Agent.send_command opS = ⟨.error (3, e), 3, 2⟩)
    ∧ ((∀ i, i < 3 → ∃ e, opR i = .error e) →
        ∃ e, Agent.report_server_state opR = ⟨.error (3, e), 3, 2⟩)
    ∧ (∀ K, K < 3 → (∀ i, i < K → ∃ e, opC i = .error e) →
        ∀ v, opC K = .ok v → Agent.new_connect opC = ⟨.ok v, K + 1, K⟩)
    ∧ (∀ K, K < 3 → (∀ i, i < K → ∃ e, opS i = .error e) →
        opS K = .ok () → Agent.send_command opS = ⟨.ok (), K + 1, K⟩)
    ∧ (∀ K, K < 3 → (∀ i, i < K → ∃ e, opR i = .error e) →
        opR K = .ok () → Agent.report_server_state opR = ⟨.ok (), K + 1, K⟩) :=
  ⟨rfl, rfl,
   Agent.connect_loop_inv_le_three opC,
   Agent.retry_loop_inv_le_three opS,
   Agent.retry_loop_inv_le_three opR,
   Agent.connect_loop_all_fail opC,
   Agent.retry_loop_all_fail opS,
   Agent.retry_loop_all_fail opR,
   fun K hK hf v hs => Agent.connect_loop_succeeds opC K hK hf v hs,
   fun K hK hf hs => Agent.retry_loop_succeeds opS K hK hf hs,
   fun K hK hf hs => Agent.retry_loop_succeeds opR K hK hf hs⟩

/-- Witness for C5: an operation failing on all three attempts exhausts the
retry policy of `send_command`: error carrying attempt count 3, after 3
invocations and 2 sleeps. -/
theorem C5_retry_policy_witness :
    ∃ e, Agent.send_command (fun _ => (Except.error "boom" : Except String Unit))
      = ⟨.error (3, e), 3, 2⟩ :=
  (C5_retry_policy String Unit (fun _ => Except.error "boom")
      (fun _ => Except.error "boom") (fun _ => Except.error "boom")
    ).2.2.2.2.2.2.1 (fun _ _ => ⟨"boom", rfl⟩)

/-- C4: evaluation of the agent's `report_server_state` at the failing input
in which the underlying report RPC fails on every attempt (and the local
channel send succeeds, as it always does while the receiver is in scope).
Because `try_report_state` discards the RPC call's result, the wrapper
returns success after a single invocation: no retry is performed and no
error is surfaced to the reporting loop, contrary to the claim (and to the
retry machinery and the commented-out response checks in the source). -/
theorem C4_rpc_failure_not_retried :
    Agent.report_server_state
        (fun _ => Agent.try_report_state (Except.ok ())
          (Except.error "RPC 调用失败"))
      = ⟨.ok (), 1, 0⟩ := rfl

/-- C6: evaluation of the reporting-loop tick decision at the failing input
`state_report_interval = 2` seconds with a report lasting 1500 ms.  The
source compares the elapsed time against the hard-coded 1-second interval —
`start_reporting_state` never reads the configured `state_report_interval` —
so it resets the tick and reports again immediately, whereas the claim
(comparing against the configured `D = 2000` ms) requires awaiting the
remaining 500 ms of the tick. -/
theorem C6_configured_interval_ignored :
    Agent.start_reporting_state_tick 1500 = .resetImmediate
    ∧ Agent.claimed_tick 2000 1500 = .awaitTick
    ∧ Agent.start_reporting_state_tick 1500 ≠ Agent.claimed_tick 2000 1500 :=
  ⟨rfl, rfl, by decide⟩

/-- C7 (amended): `fetch_geo_ip` runs all configured providers concurrently,
awaits ALL of their completions (`join_all`), and returns the first
successful result in configuration order — configuration order, not order of
completion, decides the winner; when every provider fails it returns the
default `GeoIp` with empty IPv4 and IPv6 strings and never propagates an
error. -/
theorem C7_first_ok_in_config_order (ε : Type) :
    (∀ (pre rest : List (Except ε Agent.GeoIp)) (g : Agent.GeoIp),
      (∀ r ∈ pre, ∃ e, r = .error e) →
      Agent.fetch_geo_ip (pre ++ .ok g :: rest) = g)
    ∧ (∀ results : List (Except ε Agent.GeoIp),
      (∀ r ∈ results, ∃ e, r = .error e) →
      Agent.fetch_geo_ip results = Agent.GeoIp.empty)
    ∧ Agent.GeoIp.empty.ipv4 = "" ∧ Agent.GeoIp.empty.ipv6 = "" := by
  refine ⟨?_, ?_, rfl, rfl⟩
  · intro pre
    induction pre with
    | nil => intro rest g _; rfl
    | cons r pre ih =>
      intro rest g h
      obtain ⟨e, he⟩ := h r (List.mem_cons_self r pre)
      subst he
      simpa [Agent.fetch_geo_ip] using
        ih rest g (fun x hx => h x (List.mem_cons_of_mem _ hx))
  · intro results
    induction results with
    | nil => intro _; rfl
    | cons r res ih =>
      intro h
      obtain ⟨e, he⟩ := h r (List.mem_cons_self r res)
      subst he
      simpa [Agent.fetch_geo_ip] using
        ih (fun x hx => h x (List.mem_cons_of_mem _ hx))

/-- Witness for C7: one failed provider followed by one success; the success
is returned. -/
theorem C7_first_ok_in_config_order_witness :
    Agent.fetch_geo_ip
        (([.error ()] ++ .ok ⟨"1.2.3.4", "::1"⟩ :: [])
          : List (Except Unit Agent.GeoIp))
      = ⟨"1.2.3.4", "::1"⟩ :=
  (C7_first_ok_in_config_order Unit).1 [.error ()] [] ⟨"1.2.3.4", "::1"⟩
    (fun r hr => ⟨(), by simpa using hr⟩)

/-- Counterexample for C7 as stated: two providers both succeed; the second
one in configuration order completes first (time 1 versus time 10).  The
claimed completion-order winner is the second provider's address, but
`fetch_geo_ip` returns the first provider's address: configuration order,
not completion order, decides. -/
theorem C7_counterexample :
    Agent.fetch_geo_ip
        (([((.ok ⟨"203.0.113.1", ""⟩ : Except Unit Agent.GeoIp), 10),
           ((.ok ⟨"198.51.100.2", ""⟩ : Except Unit Agent.GeoIp), 1)]).map
          Prod.fst)
      = ⟨"203.0.113.1", ""⟩
    ∧ Agent.first_success_by_completion
        [((.ok ⟨"203.0.113.1", ""⟩ : Except Unit Agent.GeoIp), 10),
         ((.ok ⟨"198.51.100.2", ""⟩ : Except Unit Agent.GeoIp), 1)]
      = ⟨"198.51.100.2", ""⟩
    ∧ (⟨"203.0.113.1", ""⟩ : Agent.GeoIp) ≠ ⟨"198.51.100.2", ""⟩ :=
  ⟨rfl, rfl, by decide⟩

/-- C8: a command whose recipient list does not contain the agent's identity
is discarded silently: `parse_command` returns success, the agent state
(including the `report_state` flag) is unchanged, and no action is
triggered. -/
theorem C8_recipient_filtering (agent : Agent.ServerMonitorAgent)
    (command : Command)
    (h : command.server_ids.contains agent.server_id = false) :
    Agent.parse_command agent (.ok command) = .ok (agent, []) := by
  simp only [Agent.parse_command]
  rw [h]
  rfl

/-- Witness for C8: agent 42 receiving a `report_state` command addressed to
agents 1, 2 and 3. -/
theorem C8_recipient_filtering_witness :
    Agent.parse_command ⟨42, false⟩ (.ok ⟨0, "report_state", [1, 2, 3]⟩)
      = .ok (⟨42, false⟩, []) :=
  C8_recipient_filtering ⟨42, false⟩ ⟨0, "report_state", [1, 2, 3]⟩ (by decide)
